import Mathlib

/-!
Verification development for the Panther trading bot core.

Shallow embedding of the bookkeeping components of the bot
(position ledger, risk governor, volume allocator, order executor,
three-candle strategy, bot state machine and the strategy-C position
monitor) together with proofs of the behavioural properties stated in
the design document.

Modelling conventions:
* Python `float` prices, sizes and PnL figures are modelled as `ℚ`
  (the code performs only field arithmetic and comparisons on them).
* Python `dict` objects are modelled as association lists with unique
  keys; assignment overwrites in place or appends, matching dict
  insertion-order semantics.
* `datetime` values are modelled by their calendar fields; the
  `strftime` day/hour/month keys used by the code only ever get
  compared for equality, and the zero-padded decimal rendering is
  injective on the fields it prints, so the keys are modelled by the
  corresponding field tuples.
* Python `str.upper()` is modelled character-wise (`pyUpper`), which
  agrees with CPython on the ASCII side strings used by the code.
* Methods that mutate an object in place are modelled as functions
  returning the updated record (paired with the method's return value
  where it has one).
-/

/-- Calendar timestamp; stands for a `datetime` value. -/
structure Timestamp where
  year : Nat
  month : Nat
  day : Nat
  hour : Nat
  minute : Nat
  second : Nat
deriving DecidableEq, Repr

/-- Key produced by `strftime("%Y-%m-%d")`, modelled by the field tuple. -/
def dayId (ts : Timestamp) : Nat × Nat × Nat := (ts.year, ts.month, ts.day)

/-- Key produced by `strftime("%Y-%m-%d-%H")`, modelled by the field tuple. -/
def hourId (ts : Timestamp) : Nat × Nat × Nat × Nat := (ts.year, ts.month, ts.day, ts.hour)

/-- Key produced by `strftime("%Y-%m")`, modelled by the field tuple. -/
def monthId (ts : Timestamp) : Nat × Nat := (ts.year, ts.month)

/-- Python dict assignment `d[k] = v`: overwrite in place if present, else append. -/
def dictSet {α : Type} (k : String) (v : α) : List (String × α) → List (String × α)
  | [] => [(k, v)]
  | (k', v') :: rest => if k' = k then (k, v) :: rest else (k', v') :: dictSet k v rest

/-- Python `d.get(k, dflt)`. -/
def dictGetD {α : Type} (l : List (String × α)) (k : String) (dflt : α) : α :=
  (l.lookup k).getD dflt

/-- Python `str.upper()` on the ASCII strings used by the code. -/
def pyUpper (s : String) : String := String.mk (s.data.map Char.toUpper)

/-- `execution/position_manager.py` — dataclass `Position`. -/
structure Position where
  symbol : String
  strategy_id : String
  side : String
  size : ℚ
  entry_price : ℚ
  stop_loss : ℚ
  take_profit : Option ℚ
  opened_at : Timestamp
deriving DecidableEq, Repr

/-- `execution/position_manager.py` — dataclass `TradeRecord`. -/
structure TradeRecord where
  symbol : String
  strategy_id : String
  side : String
  size : ℚ
  entry_price : ℚ
  exit_price : ℚ
  opened_at : Timestamp
  closed_at : Timestamp
  pnl : ℚ
deriving DecidableEq, Repr

/-- `execution/position_manager.py` — class `PositionManager` state:
`_positions` dict and `_closed_trades` list. -/
structure PositionManager where
  positions : List (String × Position)
  closed_trades : List TradeRecord
deriving DecidableEq, Repr

/-- Freshly constructed `PositionManager()`. -/
def PositionManager.init : PositionManager := ⟨[], []⟩

/-- `PositionManager._key`. -/
def posKey (symbol strategy_id : String) : String := symbol ++ ":" ++ strategy_id

/-- `PositionManager.has_open_position`. -/
def PositionManager.has_open_position (pm : PositionManager) (symbol strategy_id : String) : Bool :=
  (pm.positions.lookup (posKey symbol strategy_id)).isSome

/-- `PositionManager.open_position`. -/
def PositionManager.open_position (pm : PositionManager) (p : Position) : PositionManager :=
  { pm with positions := dictSet (posKey p.symbol p.strategy_id) p pm.positions }

/-- `PositionManager.close_position` (dict `pop` of the key, trade not recorded). -/
def PositionManager.close_position (pm : PositionManager) (symbol strategy_id : String) :
    PositionManager :=
  { pm with positions := pm.positions.filter (fun q => q.1 ≠ posKey symbol strategy_id) }

/-- `PositionManager.get_position`. -/
def PositionManager.get_position (pm : PositionManager) (symbol strategy_id : String) :
    Option Position :=
  pm.positions.lookup (posKey symbol strategy_id)

/-- `PositionManager.open_positions_count`. -/
def PositionManager.open_positions_count (pm : PositionManager) : Nat :=
  pm.positions.length

/-- `PositionManager.close_position_with_price`: pops the position, computes the
realized PnL by side, appends a `TradeRecord` and returns it. -/
def PositionManager.close_position_with_price (pm : PositionManager)
    (symbol strategy_id : String) (exit_price : ℚ) (closed_at : Timestamp) :
    Option TradeRecord × PositionManager :=
  match pm.positions.lookup (posKey symbol strategy_id) with
  | none => (none, pm)
  | some position =>
      let pnl : ℚ :=
        if pyUpper position.side = "BUY" then
          (exit_price - position.entry_price) * position.size
        else
          (position.entry_price - exit_price) * position.size
      let trade : TradeRecord :=
        { symbol := position.symbol
          strategy_id := position.strategy_id
          side := position.side
          size := position.size
          entry_price := position.entry_price
          exit_price := exit_price
          opened_at := position.opened_at
          closed_at := closed_at
          pnl := pnl }
      (some trade,
        { positions := pm.positions.filter (fun q => q.1 ≠ posKey symbol strategy_id)
          closed_trades := pm.closed_trades ++ [trade] })

/-- The mutating operations of the Position Ledger. -/
inductive LedgerOp where
  | openPos (p : Position)
  | closePos (symbol strategy_id : String)
  | closeWithExit (symbol strategy_id : String) (exit_price : ℚ) (closed_at : Timestamp)
deriving DecidableEq, Repr

/-- Effect of one ledger operation on the `PositionManager` state. -/
def applyLedgerOp (pm : PositionManager) : LedgerOp → PositionManager
  | .openPos p => pm.open_position p
  | .closePos symbol strategy_id => pm.close_position symbol strategy_id
  | .closeWithExit symbol strategy_id exit_price closed_at =>
      (pm.close_position_with_price symbol strategy_id exit_price closed_at).2

/-- State reached from a fresh `PositionManager()` by a sequence of operations. -/
def runLedgerOps (ops : List LedgerOp) : PositionManager :=
  ops.foldl applyLedgerOp PositionManager.init

/-- The ledger holds at most one position per `(symbol, strategy)` key. -/
def keysNodup (pm : PositionManager) : Prop :=
  (pm.positions.map Prod.fst).Nodup

/-- `execution/risk_manager.py` — dataclass `RiskConfig` with its defaults. -/
structure RiskConfig where
  max_daily_loss_pct : ℚ := 3 / 100
  max_consecutive_losses : Nat := 3
  max_orders_per_hour : Nat := 20
  risk_per_trade_pct : ℚ := 1 / 200
deriving DecidableEq, Repr

/-- `execution/risk_manager.py` — class `RiskManager` state. -/
structure RiskManager where
  config : RiskConfig
  day_key : Nat × Nat × Nat
  equity_start : ℚ
  realized_pnl : ℚ
  consecutive_losses : Nat
  orders_this_hour : Nat
  hour_key : Nat × Nat × Nat × Nat
deriving DecidableEq, Repr

/-- `RiskManager.start_day`. -/
def RiskManager.start_day (rm : RiskManager) (equity : ℚ) (timestamp : Timestamp) :
    RiskManager :=
  { rm with
    day_key := dayId timestamp
    equity_start := equity
    realized_pnl := 0
    consecutive_losses := 0 }

/-- `RiskManager.register_order`. -/
def RiskManager.register_order (rm : RiskManager) (timestamp : Timestamp) : RiskManager :=
  let rm' :=
    if hourId timestamp ≠ rm.hour_key then
      { rm with hour_key := hourId timestamp, orders_this_hour := 0 }
    else rm
  { rm' with orders_this_hour := rm'.orders_this_hour + 1 }

/-- `RiskManager.register_pnl`. -/
def RiskManager.register_pnl (rm : RiskManager) (pnl : ℚ) : RiskManager :=
  { rm with
    realized_pnl := rm.realized_pnl + pnl
    consecutive_losses := if pnl < 0 then rm.consecutive_losses + 1 else 0 }

/-- `RiskManager.can_trade`: returns the decision together with the updated
state (the method resets counters on key rollover as a side effect). -/
def RiskManager.can_trade (rm : RiskManager) (equity : ℚ) (timestamp : Timestamp) :
    Bool × RiskManager :=
  let rm1 := if dayId timestamp ≠ rm.day_key then rm.start_day equity timestamp else rm
  let rm2 := if rm1.equity_start ≤ 0 then { rm1 with equity_start := equity } else rm1
  let max_loss := rm2.equity_start * rm2.config.max_daily_loss_pct
  if -rm2.realized_pnl ≥ max_loss then (false, rm2)
  else if rm2.consecutive_losses ≥ rm2.config.max_consecutive_losses then (false, rm2)
  else
    let rm3 :=
      if hourId timestamp ≠ rm2.hour_key then
        { rm2 with hour_key := hourId timestamp, orders_this_hour := 0 }
      else rm2
    if rm3.orders_this_hour ≥ rm3.config.max_orders_per_hour then (false, rm3)
    else (true, rm3)

/-- `execution/volume_manager.py` — dataclass `VolumeConfig`. -/
structure VolumeConfig where
  monthly_target : ℚ
  trading_days : ℤ := 30
  strategy_allocations : List (String × ℚ) := []
deriving DecidableEq, Repr

/-- `execution/volume_manager.py` — class `VolumeManager` state. -/
structure VolumeManager where
  config : VolumeConfig
  daily_volume : ℚ
  monthly_volume : ℚ
  strategy_volume : List (String × ℚ)
  current_day : Nat × Nat × Nat
  current_month : Nat × Nat
deriving DecidableEq, Repr

/-- `VolumeManager.daily_target` property. -/
def VolumeManager.daily_target (vm : VolumeManager) : ℚ :=
  vm.config.monthly_target / ((max vm.config.trading_days 1 : ℤ) : ℚ)

/-- `VolumeManager._roll_if_needed`. -/
def VolumeManager.roll_if_needed (vm : VolumeManager) (dt : Timestamp) : VolumeManager :=
  let vm1 :=
    if dayId dt ≠ vm.current_day then
      { vm with daily_volume := 0, current_day := dayId dt }
    else vm
  if monthId dt ≠ vm1.current_month then
    { vm1 with
      monthly_volume := 0
      strategy_volume := vm1.strategy_volume.map (fun p => (p.1, 0))
      current_month := monthId dt }
  else vm1

/-- `VolumeManager.register_trade` (`setdefault` then `+=` is dict assignment
of the old-or-zero value plus the notional). -/
def VolumeManager.register_trade (vm : VolumeManager) (strategy_id : String)
    (notional : ℚ) (timestamp : Timestamp) : VolumeManager :=
  let vm1 := vm.roll_if_needed timestamp
  { vm1 with
    daily_volume := vm1.daily_volume + notional
    monthly_volume := vm1.monthly_volume + notional
    strategy_volume :=
      dictSet strategy_id (dictGetD vm1.strategy_volume strategy_id 0 + notional)
        vm1.strategy_volume }

/-- `VolumeManager.strategy_remaining` (returned value; the rollover side
effect is applied to the local copy it reads from). -/
def VolumeManager.strategy_remaining (vm : VolumeManager) (strategy_id : String)
    (timestamp : Timestamp) : ℚ :=
  let vm1 := vm.roll_if_needed timestamp
  let allocation := dictGetD vm1.config.strategy_allocations strategy_id 1
  let target := vm1.daily_target * allocation
  max (target - dictGetD vm1.strategy_volume strategy_id 0) 0

/-- `VolumeManager.compute_size`. -/
def VolumeManager.compute_size (vm : VolumeManager) (strategy_id : String)
    (risk_pct equity atr_in k : ℚ) (expected_trades_left : ℤ) (price : ℚ)
    (timestamp : Timestamp) : ℚ :=
  if atr_in ≤ 0 ∨ k ≤ 0 ∨ price ≤ 0 then 0
  else
    let base_size := (risk_pct * equity) / (atr_in * k)
    let remaining_volume := vm.strategy_remaining strategy_id timestamp
    if expected_trades_left ≤ 0 then 0
    else
      let max_size := (remaining_volume / (expected_trades_left : ℚ)) / price
      min base_size max_size

/-- `models/signal.py` — enum `Side`. -/
inductive Side where
  | BUY
  | SELL
deriving DecidableEq, Repr

/-- The `.value` string of the `Side` enum member. -/
def Side.value : Side → String
  | .BUY => "BUY"
  | .SELL => "SELL"

/-- `models/signal.py` — frozen dataclass `TradeSignal` (the metadata map is
modelled as an association list; strategy C never fills it). -/
structure TradeSignal where
  symbol : String
  strategy_id : String
  side : Side
  timestamp : Timestamp
  price : ℚ
  stop_loss : ℚ
  take_profit : Option ℚ
  size : ℚ
  reason : String := ""
  confidence : Option ℚ := none
  metadata : List (String × ℚ) := []
deriving DecidableEq, Repr

/-- One OHLC bar as consumed by strategy C (the dict entries it reads). -/
structure Candle where
  «open» : ℚ
  high : ℚ
  low : ℚ
  close : ℚ
deriving DecidableEq, Repr

/-- Python negative-index list access `l[i]` for `-l.length ≤ i < 0`
(out-of-range access cannot occur under the guards of the callers). -/
def pyGet (l : List ℚ) (i : ℤ) : ℚ :=
  if i < 0 then l.getD (l.length + i).toNat 0 else l.getD i.toNat 0

/-- `strategies/indicators.py` — function `atr`. -/
def atr (highs lows closes : List ℚ) (period : Nat) : Option ℚ :=
  if highs.length < period + 1 ∨ lows.length < period + 1 ∨ closes.length < period + 1 then
    none
  else
    let trs := (List.range period).map (fun j =>
      let i : ℤ := (j : ℤ) - (period : ℤ)
      let high := pyGet highs i
      let low := pyGet lows i
      let prev_close := pyGet closes (i - 1)
      max (high - low) (max |high - prev_close| |low - prev_close|))
    some (trs.sum / (period : ℚ))

/-- `strategies/strategy_c.py` — dataclass `StrategyCConfig`. -/
structure StrategyCConfig where
  atr_period : Nat := 14
  min_atr : Option ℚ := none
  max_atr : Option ℚ := none
deriving DecidableEq, Repr

/-- The guard `min_atr is not None and atr_val < min_atr`. -/
def minAtrBlocks : Option ℚ → ℚ → Bool
  | some m, v => v < m
  | none, _ => false

/-- The guard `max_atr is not None and atr_val > max_atr`. -/
def maxAtrBlocks : Option ℚ → ℚ → Bool
  | some m, v => m < v
  | none, _ => false

/-- Python slice `candles[-3:]` under `3 ≤ candles.length`. -/
def lastThree (candles : List Candle) : List Candle :=
  candles.drop (candles.length - 3)

/-- Value used only for total list access; unreachable under length guards. -/
def dummyCandle : Candle := ⟨0, 0, 0, 0⟩

/-- The per-candle condition `c["close"] > c["open"]`. -/
def isBullishCandle (c : Candle) : Bool := decide (c.«open» < c.close)

/-- The per-candle condition `c["close"] < c["open"]`. -/
def isBearishCandle (c : Candle) : Bool := decide (c.close < c.«open»)

/-- The strategy id class attribute of `StrategyC`. -/
def strategyCId : String := "candle3"

/-- `strategies/strategy_c.py` — `StrategyC.generate_signal`. -/
def generate_signal_c (config : StrategyCConfig) (candles : List Candle)
    (size : ℚ) (symbol : String) (timestamp : Timestamp) : Option TradeSignal :=
  if candles.length < max 3 config.atr_period + 1 then none
  else
    match atr (candles.map Candle.high) (candles.map Candle.low)
        (candles.map Candle.close) config.atr_period with
    | none => none
    | some atr_val =>
      if minAtrBlocks config.min_atr atr_val then none
      else if maxAtrBlocks config.max_atr atr_val then none
      else
        let last_three := lastThree candles
        let first_candle_open := (last_three.headD dummyCandle).«open»
        let bull := last_three.all isBullishCandle
        let bear := last_three.all isBearishCandle
        let last_close := (candles.getLastD dummyCandle).close
        if bull then
          some
            { symbol := symbol
              strategy_id := strategyCId
              side := .BUY
              timestamp := timestamp
              price := last_close
              stop_loss := first_candle_open
              take_profit := none
              size := size
              reason := "three_bullish_3m" }
        else if bear then
          some
            { symbol := symbol
              strategy_id := strategyCId
              side := .SELL
              timestamp := timestamp
              price := last_close
              stop_loss := first_candle_open
              take_profit := none
              size := size
              reason := "three_bearish_3m" }
        else none

/-- `exchange/types.py` — dataclass `OrderResult`. -/
structure OrderResult where
  order_id : String
  status : String
  filled : ℚ
  average_price : Option ℚ
deriving DecidableEq, Repr

/-- `execution/order_manager.py` — `OrderManager.execute_signal`.
The gateway response to `client.create_order` is passed in as `result`;
the returned tuple is (optional order id, ledger, risk governor, volume
allocator) after the call. -/
def execute_signal (pm : PositionManager) (rm : RiskManager) (vm : VolumeManager)
    (signal : TradeSignal) (timestamp : Timestamp) (result : OrderResult) :
    Option String × PositionManager × RiskManager × VolumeManager :=
  if pm.has_open_position signal.symbol signal.strategy_id then (none, pm, rm, vm)
  else
    let rm1 := rm.register_order timestamp
    if result.status = "open" ∨ result.status = "closed" then
      let position : Position :=
        { symbol := signal.symbol
          strategy_id := signal.strategy_id
          side := signal.side.value
          size := signal.size
          entry_price := signal.price
          stop_loss := signal.stop_loss
          take_profit := signal.take_profit
          opened_at := signal.timestamp }
      let pm1 := pm.open_position position
      let notional := signal.price * signal.size
      let vm1 := vm.register_trade signal.strategy_id notional timestamp
      (some result.order_id, pm1, rm1, vm1)
    else (none, pm, rm1, vm)

/-- `models/status.py` — enum `BotState`. -/
inductive BotState where
  | RUNNING
  | STOPPED
  | PAUSED
  | TERMINATED
  | ERROR
deriving DecidableEq, Repr

/-- `models/status.py` — enum `BotMode`. -/
inductive BotMode where
  | IDLE
  | TEST_TRADE
  | SCANNING
deriving DecidableEq, Repr

/-- The fields of `main.py`'s `TradingBot` touched by `start`/`stop`
(`loop_started` models whether `_start_loop` has launched the polling
thread / `_stop_loop` has signalled it to exit). -/
structure TradingBot where
  state : BotState
  mode : BotMode
  enabled_strategies : List String
  strategies_enabled : Bool
  test_trade_in_progress : Bool
  loop_started : Bool
deriving DecidableEq, Repr

/-- The default strategy set installed by `start` when none is supplied. -/
def allStrategies : List String := ["trend", "scalp", "candle3"]

/-- `TradingBot.start` (the `strategies` argument is truthy when it is a
non-empty list, matching Python's `if strategies:`). -/
def TradingBot.start (bot : TradingBot) (strategies : Option (List String))
    (run_test_trade : Bool) : TradingBot :=
  if bot.state = .TERMINATED ∨ bot.state = .ERROR then bot
  else
    let bot1 :=
      match strategies with
      | some s =>
          if s ≠ [] then { bot with enabled_strategies := s }
          else { bot with enabled_strategies := allStrategies }
      | none => { bot with enabled_strategies := allStrategies }
    let bot2 :=
      if run_test_trade then
        { bot1 with
          strategies_enabled := false
          test_trade_in_progress := true
          mode := .TEST_TRADE }
      else { bot1 with strategies_enabled := true, mode := .SCANNING }
    { bot2 with state := .RUNNING, loop_started := true }

/-- `TradingBot.stop`. -/
def TradingBot.stop (bot : TradingBot) : TradingBot :=
  { bot with state := .STOPPED, mode := .IDLE, loop_started := false }

/-- The `delay_seconds` argument passed to `_monitor_strategy_c` when a
three-candle position is opened in `on_market_data`. -/
def strategyCMonitorDelaySeconds : Nat := 10 * 3 * 60

/-- Which exit path (if any) one poll step of `TradingBot._monitor_strategy_c`
takes, carrying the price the position is closed at. -/
inductive MonitorExit where
  | timerClose (exit_price : ℚ)
  | externalClose (exit_price : ℚ)
  | positionGone
  | stopLossClose (exit_price : ℚ)
  | keepPolling
deriving DecidableEq, Repr

/-- One iteration of the monitor loop in `TradingBot._monitor_strategy_c`:
the loop condition `now < end_time` is evaluated first (falling through to
the close after the loop), then the bot-state check, then position lookup,
then the two stop-loss checks; `price` is the current last price. -/
def monitorPollStep (state : BotState) (now end_time : ℚ) (position : Option Position)
    (price : ℚ) : MonitorExit :=
  if ¬ now < end_time then .timerClose price
  else if state ≠ .RUNNING then .externalClose price
  else
    match position with
    | none => .positionGone
    | some position =>
        if pyUpper position.side = "BUY" ∧ price ≤ position.stop_loss then
          .stopLossClose price
        else if pyUpper position.side = "SELL" ∧ position.stop_loss ≤ price then
          .stopLossClose price
        else .keepPolling

/-! Concrete fixtures used by the witness theorems. -/

/-- A sample timestamp. -/
def tsEx : Timestamp := ⟨2025, 1, 15, 10, 0, 0⟩

/-- An open long position. -/
def posBuyEx : Position :=
  { symbol := "BTCUSDT"
    strategy_id := "trend"
    side := "BUY"
    size := 2
    entry_price := 100
    stop_loss := 95
    take_profit := none
    opened_at := tsEx }

/-- A ledger holding exactly `posBuyEx`. -/
def pmEx : PositionManager := ⟨[(posKey "BTCUSDT" "trend", posBuyEx)], []⟩

/-- A risk governor at the start of a fresh 100000-equity day. -/
def rmEx : RiskManager :=
  { config := {}
    day_key := dayId tsEx
    equity_start := 100000
    realized_pnl := 0
    consecutive_losses := 0
    orders_this_hour := 0
    hour_key := hourId tsEx }

/-- A volume allocator with the bot's production configuration. -/
def vmEx : VolumeManager :=
  { config :=
      { monthly_target := 3000000
        trading_days := 30
        strategy_allocations := [("trend", 1/4), ("scalp", 11/20), ("candle3", 1/5)] }
    daily_volume := 0
    monthly_volume := 0
    strategy_volume := [("trend", 0), ("scalp", 0), ("candle3", 0)]
    current_day := dayId tsEx
    current_month := monthId tsEx }

/-- A scalp signal whose key has no open position in `pmEx`. -/
def signalEx : TradeSignal :=
  { symbol := "BTCUSDT"
    strategy_id := "scalp"
    side := .BUY
    timestamp := tsEx
    price := 100
    stop_loss := 95
    take_profit := none
    size := 1 }

/-- A filled gateway response. -/
def orderResEx : OrderResult := ⟨"oid-1", "closed", 1, none⟩

/-- A terminated bot. -/
def botTermEx : TradingBot :=
  { state := .TERMINATED
    mode := .IDLE
    enabled_strategies := allStrategies
    strategies_enabled := true
    test_trade_in_progress := false
    loop_started := false }

/-- Fifteen 3-minute candles whose last three are bullish; every true range
over the 14-bar window is 2, so ATR(14) is 2. -/
def candlesEx : List Candle :=
  [⟨9, 10, 8, 9⟩, ⟨9, 10, 8, 9⟩, ⟨9, 10, 8, 9⟩, ⟨9, 10, 8, 9⟩,
   ⟨9, 10, 8, 9⟩, ⟨9, 10, 8, 9⟩, ⟨9, 10, 8, 9⟩, ⟨9, 10, 8, 9⟩,
   ⟨9, 10, 8, 9⟩, ⟨9, 10, 8, 9⟩, ⟨9, 10, 8, 9⟩, ⟨9, 10, 8, 9⟩,
   ⟨8, 10, 8, 9⟩, ⟨8, 10, 8, 9⟩, ⟨8, 10, 8, 9⟩]

/-! Helper lemmas. -/

/-- A key present in `dictSet k v l` either is `k` or was already a key of `l`. -/
lemma mem_keys_dictSet {α : Type} (k : String) (v : α) (l : List (String × α))
    (a : String) (ha : a ∈ (dictSet k v l).map Prod.fst) :
    a = k ∨ a ∈ l.map Prod.fst := by
  induction l with
  | nil => simpa [dictSet] using ha
  | cons hd tl ih =>
    obtain ⟨k', v'⟩ := hd
    by_cases hk : k' = k
    · simp only [dictSet, if_pos hk, List.map_cons, List.mem_cons] at ha
      rcases ha with h | h
      · exact Or.inl h
      · exact Or.inr (by simp [h])
    · simp only [dictSet, if_neg hk, List.map_cons, List.mem_cons] at ha
      rcases ha with h | h
      · exact Or.inr (by simp [h])
      · rcases ih h with h' | h'
        · exact Or.inl h'
        · exact Or.inr (by simp [h'])

/-- Dict assignment preserves key uniqueness. -/
lemma keys_nodup_dictSet {α : Type} (k : String) (v : α) (l : List (String × α))
    (h : (l.map Prod.fst).Nodup) : ((dictSet k v l).map Prod.fst).Nodup := by
  induction l with
  | nil => simp [dictSet]
  | cons hd tl ih =>
    obtain ⟨k', v'⟩ := hd
    simp only [List.map_cons, List.nodup_cons] at h
    obtain ⟨hnot, hnd⟩ := h
    by_cases hk : k' = k
    · subst hk
      have hset : dictSet k' v ((k', v') :: tl) = (k', v) :: tl := by
        simp [dictSet]
      rw [hset, List.map_cons, List.nodup_cons]
      exact ⟨hnot, hnd⟩
    · simp only [dictSet, if_neg hk, List.map_cons, List.nodup_cons]
      refine ⟨fun hmem => ?_, ih hnd⟩
      rcases mem_keys_dictSet k v tl k' hmem with h1 | h1
      · exact hk h1
      · exact hnot h1

/-- Filtering preserves key uniqueness. -/
lemma keys_nodup_filter {α : Type} (p : String × α → Bool) (l : List (String × α))
    (h : (l.map Prod.fst).Nodup) : (((l.filter p).map Prod.fst)).Nodup := by
  have hs : List.Sublist (l.filter p) l := List.filter_sublist l
  exact h.sublist (hs.map Prod.fst)

/-- Looking up a key in a list from which it was filtered out yields nothing. -/
lemma lookup_filter_self {α : Type} (k : String) (l : List (String × α)) :
    (l.filter (fun q => q.1 ≠ k)).lookup k = none := by
  induction l with
  | nil => rfl
  | cons hd tl ih =>
    obtain ⟨k', v'⟩ := hd
    by_cases h : k' = k
    · simpa [List.filter_cons, h] using ih
    · simp only [List.filter_cons]
      have : (fun q => decide (q.1 ≠ k)) (k', v') = true := by
        simpa using h
      simp only [decide_not]
      rw [if_pos (by simpa using h)]
      have hbeq : (k == k') = false := by
        simpa [beq_iff_eq] using fun he => h he.symm
      simpa [List.lookup, hbeq] using ih

/-- Every ledger operation preserves key uniqueness. -/
lemma keysNodup_applyLedgerOp (pm : PositionManager) (op : LedgerOp)
    (h : keysNodup pm) : keysNodup (applyLedgerOp pm op) := by
  cases op with
  | openPos p =>
    exact keys_nodup_dictSet _ _ _ h
  | closePos symbol strategy_id =>
    exact keys_nodup_filter _ _ h
  | closeWithExit symbol strategy_id exit_price closed_at =>
    have hred : applyLedgerOp pm (.closeWithExit symbol strategy_id exit_price closed_at)
        = (pm.close_position_with_price symbol strategy_id exit_price closed_at).2 := rfl
    rw [hred]
    unfold PositionManager.close_position_with_price
    cases pm.positions.lookup (posKey symbol strategy_id) with
    | none => exact h
    | some pos => exact keys_nodup_filter _ _ h

/-! Claim theorems. -/

/-- C1: every state of the Position Ledger reachable from the fresh ledger by
any sequence of open/close/close-with-exit operations holds at most one open
position per `(symbol, strategy_id)` key. -/
theorem C1_position_ledger_key_unique (ops : List LedgerOp) :
    keysNodup (runLedgerOps ops) := by
  suffices haux : ∀ (l : List LedgerOp) (pm : PositionManager),
      keysNodup pm → keysNodup (l.foldl applyLedgerOp pm) by
    exact haux ops PositionManager.init (by simp [keysNodup, PositionManager.init])
  intro l
  induction l with
  | nil => intro pm h; simpa using h
  | cons op tl ih => intro pm h; exact ih _ (keysNodup_applyLedgerOp pm op h)

/-- C2: closing an open position with an exit price removes it from the
ledger, appends exactly one trade record to the closed-trade history and
returns it, with PnL `(exit − entry) × size` for a BUY position and
`(entry − exit) × size` for a SELL position. -/
theorem C2_close_with_exit (pm : PositionManager) (symbol strategy_id : String)
    (pos : Position) (exit_price : ℚ) (closed_at : Timestamp)
    (h : pm.get_position symbol strategy_id = some pos) :
    ∃ trade : TradeRecord,
      (pm.close_position_with_price symbol strategy_id exit_price closed_at).1
        = some trade ∧
      ((pm.close_position_with_price symbol strategy_id exit_price closed_at).2.positions.lookup
        (posKey symbol strategy_id)) = none ∧
      (pm.close_position_with_price symbol strategy_id exit_price closed_at).2.closed_trades
        = pm.closed_trades ++ [trade] ∧
      (pos.side = "BUY" → trade.pnl = (exit_price - pos.entry_price) * pos.size) ∧
      (pos.side = "SELL" → trade.pnl = (pos.entry_price - exit_price) * pos.size) := by
  unfold PositionManager.get_position at h
  unfold PositionManager.close_position_with_price
  rw [h]
  refine ⟨_, rfl, lookup_filter_self _ _, rfl, fun hs => ?_, fun hs => ?_⟩
  · simp only [hs]
    rw [if_pos (show pyUpper "BUY" = "BUY" from rfl)]
  · simp only [hs]
    rw [if_neg (show ¬ pyUpper "SELL" = "BUY" by decide)]

/-- C2 witness: closing the BUY position of `pmEx` at exit price 110. -/
theorem C2_close_with_exit_witness :
    pmEx.get_position "BTCUSDT" "trend" = some posBuyEx ∧
    ∃ trade : TradeRecord,
      (pmEx.close_position_with_price "BTCUSDT" "trend" 110 tsEx).1 = some trade ∧
      ((pmEx.close_position_with_price "BTCUSDT" "trend" 110 tsEx).2.positions.lookup
        (posKey "BTCUSDT" "trend")) = none ∧
      (pmEx.close_position_with_price "BTCUSDT" "trend" 110 tsEx).2.closed_trades
        = pmEx.closed_trades ++ [trade] ∧
      (posBuyEx.side = "BUY" →
        trade.pnl = ((110:ℚ) - posBuyEx.entry_price) * posBuyEx.size) ∧
      (posBuyEx.side = "SELL" →
        trade.pnl = (posBuyEx.entry_price - (110:ℚ)) * posBuyEx.size) :=
  ⟨rfl, C2_close_with_exit pmEx "BTCUSDT" "trend" posBuyEx 110 tsEx rfl⟩

/-- C3: `compute_size` returns 0 whenever `atr ≤ 0`, `k ≤ 0`, `price ≤ 0` or
`expected_trades_left ≤ 0`, and otherwise returns the minimum of the
risk-based size and the remaining-volume cap. -/
theorem C3_compute_size (vm : VolumeManager) (strategy_id : String)
    (risk_pct equity atr_in k : ℚ) (expected_trades_left : ℤ) (price : ℚ)
    (timestamp : Timestamp) :
    ((atr_in ≤ 0 ∨ k ≤ 0 ∨ price ≤ 0 ∨ expected_trades_left ≤ 0) →
      vm.compute_size strategy_id risk_pct equity atr_in k expected_trades_left price
        timestamp = 0) ∧
    (0 < atr_in → 0 < k → 0 < price → 0 < expected_trades_left →
      vm.compute_size strategy_id risk_pct equity atr_in k expected_trades_left price
          timestamp
        = min ((risk_pct * equity) / (atr_in * k))
            ((vm.strategy_remaining strategy_id timestamp / (expected_trades_left : ℚ))
              / price)) := by
  constructor
  · intro hzero
    simp only [VolumeManager.compute_size]
    split_ifs with h1 h2
    · rfl
    · rfl
    · rcases hzero with h | h | h | h
      · exact absurd (Or.inl h) h1
      · exact absurd (Or.inr (Or.inl h)) h1
      · exact absurd (Or.inr (Or.inr h)) h1
      · exact absurd h h2
  · intro ha hk hp he
    simp only [VolumeManager.compute_size]
    split_ifs with h1 h2
    · rcases h1 with h | h | h
      · exact absurd h (not_le.mpr ha)
      · exact absurd h (not_le.mpr hk)
      · exact absurd h (not_le.mpr hp)
    · exact absurd h2 (not_le.mpr he)
    · rfl

/-- C3 witness: `atr = 0` forces a zero size. -/
theorem C3_compute_size_witness :
    ((0:ℚ) ≤ 0 ∨ (1:ℚ) ≤ 0 ∨ (1:ℚ) ≤ 0 ∨ (5:ℤ) ≤ 0) ∧
    vmEx.compute_size "trend" (1/200) 100000 0 1 5 1 tsEx = 0 :=
  ⟨Or.inl le_rfl,
    (C3_compute_size vmEx "trend" (1/200) 100000 0 1 5 1 tsEx).1 (Or.inl le_rfl)⟩

/-- C4: with default limits and a 100000-equity day, after a −3000 realized
PnL every same-day `can_trade` denies; a call on a new day key adopts the
supplied equity, zeroes the realized PnL and the loss streak, and permits
trading provided the hourly order count is below the limit. -/
theorem C4_risk_governor (rm : RiskManager)
    (hcfg : rm.config = {}) (heq : rm.equity_start = 100000)
    (hpnl : rm.realized_pnl = 0) :
    (∀ (e : ℚ) (ts : Timestamp), dayId ts = (rm.register_pnl (-3000)).day_key →
      ((rm.register_pnl (-3000)).can_trade e ts).1 = false) ∧
    (∀ (e : ℚ) (ts : Timestamp), dayId ts ≠ (rm.register_pnl (-3000)).day_key →
      0 < e →
      (if hourId ts = rm.hour_key then rm.orders_this_hour else 0) < 20 →
      ((rm.register_pnl (-3000)).can_trade e ts).1 = true ∧
      ((rm.register_pnl (-3000)).can_trade e ts).2.equity_start = e ∧
      ((rm.register_pnl (-3000)).can_trade e ts).2.realized_pnl = 0 ∧
      ((rm.register_pnl (-3000)).can_trade e ts).2.consecutive_losses = 0 ∧
      ((rm.register_pnl (-3000)).can_trade e ts).2.day_key = dayId ts) := by
  constructor
  · intro e ts hday
    have hd : dayId ts = rm.day_key := by
      simpa [RiskManager.register_pnl] using hday
    norm_num [RiskManager.can_trade, RiskManager.register_pnl, hcfg, heq, hpnl, hd]
  · intro e ts hday hpos hhour
    have hd : dayId ts ≠ rm.day_key := by
      simpa [RiskManager.register_pnl] using hday
    have hml : ¬ e * (3 / 100) ≤ 0 :=
      not_le.mpr (mul_pos hpos (by norm_num))
    by_cases hh : hourId ts = rm.hour_key
    · have ho : ¬ rm.orders_this_hour ≥ 20 :=
        not_le.mpr (by simpa [hh] using hhour)
      norm_num [RiskManager.can_trade, RiskManager.register_pnl, RiskManager.start_day,
        hcfg, heq, hpnl, hd, hh, not_le.mpr hpos, hml, ho]
    · norm_num [RiskManager.can_trade, RiskManager.register_pnl, RiskManager.start_day,
        hcfg, heq, hpnl, hd, hh, not_le.mpr hpos, hml]

/-- C4 witness: the same-day denial at the fixture governor. -/
theorem C4_risk_governor_witness :
    rmEx.config = {} ∧ rmEx.equity_start = 100000 ∧ rmEx.realized_pnl = 0 ∧
    dayId tsEx = (rmEx.register_pnl (-3000)).day_key ∧
    ((rmEx.register_pnl (-3000)).can_trade 100000 tsEx).1 = false :=
  ⟨rfl, rfl, rfl, rfl,
    (C4_risk_governor rmEx rfl rfl rfl).1 100000 tsEx rfl⟩

/-- C5 counterexample: the holding-duration timer handed to the strategy-C
monitor is not 30 bars of the 3-minute timeframe (5400 s). -/
theorem C5_counterexample : strategyCMonitorDelaySeconds ≠ 30 * (3 * 60) := by
  decide

/-- C5 (amended): when the holding-duration timer has elapsed the monitor
closes at the current price, and the holding duration equals 10 bars times
the 3-minute bar length (1800 s). -/
theorem C5_monitor_timer (state : BotState) (now end_time : ℚ)
    (position : Option Position) (price : ℚ) (h : end_time ≤ now) :
    monitorPollStep state now end_time position price = .timerClose price ∧
    strategyCMonitorDelaySeconds = 10 * (3 * 60) := by
  refine ⟨?_, rfl⟩
  simp [monitorPollStep, not_lt.mpr h]

/-- C5 witness: timer elapsed at the fixture position. -/
theorem C5_monitor_timer_witness :
    (50:ℚ) ≤ 100 ∧
    (monitorPollStep .RUNNING 100 50 (some posBuyEx) 99 = .timerClose 99 ∧
      strategyCMonitorDelaySeconds = 10 * (3 * 60)) :=
  ⟨by decide, C5_monitor_timer .RUNNING 100 50 (some posBuyEx) 99 (by decide)⟩

/-- C6: monitor evaluation at simultaneous exit conditions. With the bot
Running, the timer expired and the BUY stop-loss breached (price 90 is at
or below stop 95) the code takes the timer path; with the bot Stopped, the
timer not expired and the stop-loss breached it takes the external-stop
path. Both contradict the documented stop-loss-first priority. -/
theorem C6_monitor_priority_eval :
    monitorPollStep .RUNNING 100 50 (some posBuyEx) 90 = .timerClose 90 ∧
    monitorPollStep .STOPPED 0 50 (some posBuyEx) 90 = .externalClose 90 := by
  constructor
  · rfl
  · rfl

/-- C7: a bot in `TERMINATED` or `ERROR` state rejects `start` entirely:
the call leaves every field unchanged and starts no polling loop. -/
theorem C7_start_rejected (bot : TradingBot) (strategies : Option (List String))
    (run_test_trade : Bool)
    (h : bot.state = .TERMINATED ∨ bot.state = .ERROR) :
    bot.start strategies run_test_trade = bot := by
  unfold TradingBot.start
  rw [if_pos h]

/-- C7 witness: starting the terminated fixture bot is a no-op. -/
theorem C7_start_rejected_witness :
    (botTermEx.state = .TERMINATED ∨ botTermEx.state = .ERROR) ∧
    botTermEx.start none true = botTermEx :=
  ⟨Or.inl rfl, C7_start_rejected botTermEx none true (Or.inl rfl)⟩

/-- C10: from `TERMINATED` or `ERROR`, `stop` moves the bot to `STOPPED`
with mode `IDLE`, after which `start` is accepted and reaches `RUNNING`. -/
theorem C10_stop_then_start (bot : TradingBot) (strategies : Option (List String))
    (run_test_trade : Bool)
    (h : bot.state = .TERMINATED ∨ bot.state = .ERROR) :
    bot.stop.state = .STOPPED ∧ bot.stop.mode = .IDLE ∧
    (bot.stop.start strategies run_test_trade).state = .RUNNING := by
  refine ⟨rfl, rfl, ?_⟩
  unfold TradingBot.start
  rw [if_neg (by simp [TradingBot.stop])]

/-- C10 witness: the terminated fixture bot escapes via stop then start. -/
theorem C10_stop_then_start_witness :
    (botTermEx.state = .TERMINATED ∨ botTermEx.state = .ERROR) ∧
    (botTermEx.stop.state = .STOPPED ∧ botTermEx.stop.mode = .IDLE ∧
      (botTermEx.stop.start none false).state = .RUNNING) :=
  ⟨Or.inl rfl, C10_stop_then_start botTermEx none false (Or.inl rfl)⟩

/-- C9: `execute_signal` is a no-op when the key has an open position;
otherwise it increments the risk governor's hourly counter, and on an
accepted/filled gateway status opens exactly one position and registers
the notional while returning the order id, leaving ledger and volume
untouched otherwise. -/
theorem C9_execute_signal (pm : PositionManager) (rm : RiskManager)
    (vm : VolumeManager) (signal : TradeSignal) (timestamp : Timestamp)
    (result : OrderResult) :
    (pm.has_open_position signal.symbol signal.strategy_id = true →
      execute_signal pm rm vm signal timestamp result = (none, pm, rm, vm)) ∧
    (pm.has_open_position signal.symbol signal.strategy_id = false →
      (result.status = "open" ∨ result.status = "closed") →
      execute_signal pm rm vm signal timestamp result =
        (some result.order_id,
          pm.open_position
            { symbol := signal.symbol
              strategy_id := signal.strategy_id
              side := signal.side.value
              size := signal.size
              entry_price := signal.price
              stop_loss := signal.stop_loss
              take_profit := signal.take_profit
              opened_at := signal.timestamp },
          rm.register_order timestamp,
          vm.register_trade signal.strategy_id (signal.price * signal.size) timestamp)) ∧
    (pm.has_open_position signal.symbol signal.strategy_id = false →
      ¬ (result.status = "open" ∨ result.status = "closed") →
      execute_signal pm rm vm signal timestamp result
        = (none, pm, rm.register_order timestamp, vm)) := by
  refine ⟨fun hopen => ?_, fun hopen hs => ?_, fun hopen hs => ?_⟩
  · simp [execute_signal, hopen]
  · simp [execute_signal, hopen, hs]
  · simp [execute_signal, hopen, hs]

/-- C9 witness: a filled scalp order against the fixture state. -/
theorem C9_execute_signal_witness :
    pmEx.has_open_position signalEx.symbol signalEx.strategy_id = false ∧
    (orderResEx.status = "open" ∨ orderResEx.status = "closed") ∧
    execute_signal pmEx rmEx vmEx signalEx tsEx orderResEx =
      (some orderResEx.order_id,
        pmEx.open_position
          { symbol := signalEx.symbol
            strategy_id := signalEx.strategy_id
            side := signalEx.side.value
            size := signalEx.size
            entry_price := signalEx.price
            stop_loss := signalEx.stop_loss
            take_profit := signalEx.take_profit
            opened_at := signalEx.timestamp },
        rmEx.register_order tsEx,
        vmEx.register_trade signalEx.strategy_id (signalEx.price * signalEx.size) tsEx) :=
  ⟨by decide, Or.inr rfl,
    (C9_execute_signal pmEx rmEx vmEx signalEx tsEx orderResEx).2.1 (by decide)
      (Or.inr rfl)⟩

/-- C8: with enough history and the ATR band checks passing, three bullish
candles yield a BUY signal priced at the last close with stop-loss at the
first of the three candles' open and no take-profit; a mixed last-three
pattern yields no signal. -/
theorem C8_three_candle (config : StrategyCConfig) (candles : List Candle)
    (size : ℚ) (symbol : String) (timestamp : Timestamp) (atr_val : ℚ)
    (hlen : max 3 config.atr_period + 1 ≤ candles.length)
    (hatr : atr (candles.map Candle.high) (candles.map Candle.low)
        (candles.map Candle.close) config.atr_period = some atr_val)
    (hmin : minAtrBlocks config.min_atr atr_val = false)
    (hmax : maxAtrBlocks config.max_atr atr_val = false) :
    ((lastThree candles).all isBullishCandle = true →
      generate_signal_c config candles size symbol timestamp = some
        { symbol := symbol
          strategy_id := strategyCId
          side := .BUY
          timestamp := timestamp
          price := (candles.getLastD dummyCandle).close
          stop_loss := ((lastThree candles).headD dummyCandle).«open»
          take_profit := none
          size := size
          reason := "three_bullish_3m" }) ∧
    ((lastThree candles).all isBullishCandle = false →
      (lastThree candles).all isBearishCandle = false →
      generate_signal_c config candles size symbol timestamp = none) := by
  have hguard : ¬ candles.length < max 3 config.atr_period + 1 := not_lt.mpr hlen
  constructor
  · intro hbull
    simp [generate_signal_c, hguard, hatr, hmin, hmax, hbull]
  · intro hbull hbear
    simp [generate_signal_c, hguard, hatr, hmin, hmax, hbull, hbear]

set_option maxHeartbeats 1600000 in
/-- ATR(14) of the fixture candles evaluates to 2. -/
lemma atr_candlesEx :
    atr (candlesEx.map Candle.high) (candlesEx.map Candle.low)
      (candlesEx.map Candle.close) 14 = some 2 := by
  norm_num [atr, candlesEx, pyGet, List.range_succ, Int.toNat, List.getD,
    List.getElem?_cons_zero, List.getElem?_cons_succ]

/-- C8 witness: the fixture candles produce the expected BUY signal. -/
theorem C8_three_candle_witness :
    max 3 ({} : StrategyCConfig).atr_period + 1 ≤ candlesEx.length ∧
    atr (candlesEx.map Candle.high) (candlesEx.map Candle.low)
      (candlesEx.map Candle.close) ({} : StrategyCConfig).atr_period = some 2 ∧
    minAtrBlocks ({} : StrategyCConfig).min_atr 2 = false ∧
    maxAtrBlocks ({} : StrategyCConfig).max_atr 2 = false ∧
    (lastThree candlesEx).all isBullishCandle = true ∧
    generate_signal_c {} candlesEx 1 "BTCUSDT" tsEx = some
      { symbol := "BTCUSDT"
        strategy_id := strategyCId
        side := .BUY
        timestamp := tsEx
        price := (candlesEx.getLastD dummyCandle).close
        stop_loss := ((lastThree candlesEx).headD dummyCandle).«open»
        take_profit := none
        size := 1
        reason := "three_bullish_3m" } :=
  ⟨by decide, atr_candlesEx, rfl, rfl, by decide,
    (C8_three_candle {} candlesEx 1 "BTCUSDT" tsEx 2 (by decide) atr_candlesEx rfl rfl).1
      (by decide)⟩
